import Mathlib

/-!
Verification of the countdown / particle-choreography engine
(`new-years-visual`): a shallow embedding of the countdown state machine,
the easing library, the smoothing utility, the scene orchestrator's
phase-transition logic, and the burst / firework particle systems,
with theorems checking the natural-language specification.

JavaScript numbers are modelled as rationals (`ℚ`) where the code only
uses field operations and comparisons, and as reals (`ℝ`) where the code
uses `Math.pow` with non-integer exponents or `Math.sin`
(`Real.rpow` matches `Math.pow` on the inputs that occur:
`Math.pow(0,0) = 1 = (0:ℝ) ^ (0:ℝ)`).
-/

/-- The seven countdown phases, in the dormant → celebration order
(source: `src/types/index.ts`). -/
inductive Phase where
  | dormant
  | calm
  | building
  | intense
  | final
  | climax
  | celebration
deriving DecidableEq, Repr

/-- Position of a phase in the dormant → celebration ordering
(dormant = 0, …, celebration = 6). -/
def phaseIdx : Phase → ℕ
  | .dormant => 0
  | .calm => 1
  | .building => 2
  | .intense => 3
  | .final => 4
  | .climax => 5
  | .celebration => 6

namespace PHASE_THRESHOLDS

/-- One hour in milliseconds (source: `src/constants/phases.ts`). -/
@[simp] def calm : ℚ := 60 * 60 * 1000

/-- Ten minutes in milliseconds. -/
@[simp] def building : ℚ := 10 * 60 * 1000

/-- One minute in milliseconds. -/
@[simp] def intense : ℚ := 60 * 1000

/-- Ten seconds in milliseconds. -/
@[simp] def final : ℚ := 10 * 1000

/-- The climax moment. -/
@[simp] def climax : ℚ := 0

/-- Delay before celebration starts (6 seconds), in milliseconds. -/
@[simp] def celebrationDelay : ℚ := 6000

end PHASE_THRESHOLDS

/-- Phase classification of a remaining time in milliseconds, the if-chain of
`calculatePhase` in `src/hooks/useCountdown.ts`. -/
def calculatePhase (remaining : ℚ) : Phase :=
  if remaining ≤ -PHASE_THRESHOLDS.celebrationDelay then .celebration
  else if remaining ≤ 0 then .climax
  else if remaining ≤ PHASE_THRESHOLDS.final then .final
  else if remaining ≤ PHASE_THRESHOLDS.intense then .intense
  else if remaining ≤ PHASE_THRESHOLDS.building then .building
  else if remaining ≤ PHASE_THRESHOLDS.calm then .calm
  else .dormant

/-- The time display record produced by `formatTimeDisplay`
in `src/hooks/useCountdown.ts`.  `milliseconds` keeps the (possibly
fractional) remainder the code computes with `remaining % 1000`. -/
structure TimeDisplay where
  hours : ℤ
  minutes : ℤ
  seconds : ℤ
  milliseconds : ℚ
deriving DecidableEq, Repr

/-- The countdown state record of `calculateState`
in `src/hooks/useCountdown.ts`. -/
structure CountdownState where
  timeRemaining : ℚ
  progress : ℚ
  phase : Phase
  display : TimeDisplay
  isPast : Bool
deriving DecidableEq, Repr

/-- `formatTimeDisplay` from `src/hooks/useCountdown.ts`:
`totalSeconds = max 0 (floor (remaining / 1000))`, then split into h/m/s;
`milliseconds = max 0 (remaining % 1000)` where `%` is JavaScript `%`
(truncated remainder, negative for negative `remaining`). -/
def formatTimeDisplay (remaining : ℚ) : TimeDisplay :=
  let totalSeconds : ℤ := max 0 ⌊remaining / 1000⌋
  { hours := totalSeconds / 3600
    minutes := (totalSeconds % 3600) / 60
    seconds := totalSeconds % 60
    milliseconds := max 0 (remaining - 1000 * (remaining / 1000).floor) }

/-- `calculateState` from `src/hooks/useCountdown.ts`, with the read of
`Date.now()` made an explicit `now` argument.  `totalDuration` is one hour
in milliseconds; `progress = max 0 (min 1 (1 - remaining / totalDuration))`. -/
def calculateState (targetDate now : ℚ) : CountdownState :=
  let remaining := targetDate - now
  let totalDuration : ℚ := 60 * 60 * 1000
  let progress := max 0 (min 1 (1 - remaining / totalDuration))
  { timeRemaining := remaining
    progress := progress
    phase := calculatePhase remaining
    display := formatTimeDisplay remaining
    isPast := remaining ≤ 0 }

namespace ease

variable {α : Type*} [LinearOrderedField α]

/-- `ease.linear` from `src/utils/easing.ts`. -/
def linear (t : α) : α := t

/-- `ease.inQuad` from `src/utils/easing.ts`: `t * t`. -/
def inQuad (t : α) : α := t * t

/-- `ease.outQuad` from `src/utils/easing.ts`: `t * (2 - t)`. -/
def outQuad (t : α) : α := t * (2 - t)

/-- `ease.inOutQuad` from `src/utils/easing.ts`. -/
def inOutQuad (t : α) : α :=
  if t < 0.5 then 2 * t * t else -1 + (4 - 2 * t) * t

/-- `ease.inCubic` from `src/utils/easing.ts`: `t * t * t`. -/
def inCubic (t : α) : α := t * t * t

/-- `ease.outCubic` from `src/utils/easing.ts`: `(--t) * t * t + 1`,
i.e. `(t-1)^3 + 1` after the pre-decrement. -/
def outCubic (t : α) : α := (t - 1) * (t - 1) * (t - 1) + 1

/-- `ease.inOutCubic` from `src/utils/easing.ts`. -/
def inOutCubic (t : α) : α :=
  if t < 0.5 then 4 * t * t * t else (t - 1) * (2 * t - 2) * (2 * t - 2) + 1

/-- `ease.outBack` from `src/utils/easing.ts`, with `c1 = 1.70158`,
`c3 = c1 + 1`; `Math.pow(t-1, 3)` and `Math.pow(t-1, 2)` are integer powers. -/
def outBack (t : α) : α :=
  let c1 : α := 1.70158
  let c3 : α := c1 + 1
  1 + c3 * (t - 1) ^ 3 + c1 * (t - 1) ^ 2

/-- `ease.outExpo` from `src/utils/easing.ts`:
`t === 1 ? 1 : 1 - Math.pow(2, -10 * t)` (real power). -/
noncomputable def outExpo (t : ℝ) : ℝ :=
  if t = 1 then 1 else 1 - (2 : ℝ) ^ (-10 * t)

/-- `ease.inExpo` from `src/utils/easing.ts`:
`t === 0 ? 0 : Math.pow(2, 10 * (t - 1))` (real power). -/
noncomputable def inExpo (t : ℝ) : ℝ :=
  if t = 0 then 0 else (2 : ℝ) ^ (10 * (t - 1))

/-- `ease.elastic` from `src/utils/easing.ts`. -/
noncomputable def elastic (t : ℝ) : ℝ :=
  if t = 0 then 0
  else if t = 1 then 1
  else -((2 : ℝ) ^ (10 * t - 10)) * Real.sin ((t * 10 - 10.75) * (2 * Real.pi / 3))

/-- `ease.dramaticRamp` from `src/utils/easing.ts`: below `0.83` a linear
ramp to `0.3`; above, `0.3 + ((t - 0.83) / 0.17) ^ 2.5 * 0.7` (real power). -/
noncomputable def dramaticRamp (t : ℝ) : ℝ :=
  if t < 0.83 then t / 0.83 * 0.3
  else 0.3 + ((t - 0.83) / 0.17) ^ (2.5 : ℝ) * 0.7

/-- `ease.finalCountdown` from `src/utils/easing.ts`: `dramaticRamp` below
`0.98`; above, `0.9 + ((t - 0.98) / 0.02) ^ 1.5 * 0.1` (real power). -/
noncomputable def finalCountdown (t : ℝ) : ℝ :=
  if t < 0.98 then dramaticRamp t
  else 0.9 + ((t - 0.98) / 0.02) ^ (1.5 : ℝ) * 0.1

end ease

/-- `smoothLerp` from `src/utils/math.ts`:
`factor = 1 - Math.pow(1 - speed, dt * 60)`;
`result = current + (target - current) * factor` (real power). -/
noncomputable def smoothLerp (current target speed dt : ℝ) : ℝ :=
  current + (target - current) * (1 - (1 - speed) ^ (dt * 60))

/-- `clamp` from `src/utils/math.ts`. -/
def clamp (value minv maxv : ℚ) : ℚ := max minv (min maxv value)

/-- `lerp` from `src/utils/math.ts`. -/
def lerp (a b t : ℚ) : ℚ := a + (b - a) * t

namespace TemporalCollapseScene

/-- The orchestrator state relevant to phase transitions
(source: `src/scene/TemporalCollapseScene.ts`).  The subsystem trigger
calls performed by `triggerClimax` / `triggerCelebration` are recorded
as counters: `burstTriggerCount` counts calls to `burstSystem.trigger`,
`shockwaveClimaxCount` counts calls to `shockwaveSystem.triggerClimax`,
`flashTriggerCount` counts calls to `flashPlane.triggerFlash(1.0)`, and
`fireworkSpawnsScheduled` counts the deferred firework spawns scheduled
by `triggerCelebration` (5 per call). -/
structure OrchState where
  progress : ℚ
  phase : Phase
  clockTime : ℚ
  climaxStartTime : Option ℚ
  celebrationStartTime : Option ℚ
  targetShakeIntensity : ℚ
  burstTriggerCount : ℕ
  shockwaveClimaxCount : ℕ
  flashTriggerCount : ℕ
  fireworkSpawnsScheduled : ℕ
deriving DecidableEq, Repr

/-- `TemporalCollapseScene.triggerClimax`: records the climax start time
from the clock, triggers the burst system, the shockwave climax sequence,
maximum shake, and a full-intensity flash. -/
def triggerClimax (s : OrchState) : OrchState :=
  { s with
    climaxStartTime := some s.clockTime
    burstTriggerCount := s.burstTriggerCount + 1
    shockwaveClimaxCount := s.shockwaveClimaxCount + 1
    targetShakeIntensity := 3
    flashTriggerCount := s.flashTriggerCount + 1 }

/-- `TemporalCollapseScene.triggerCelebration`: records the celebration
start time, sets a lower shake target, and schedules 5 deferred firework
spawns (the `setTimeout` loop). -/
def triggerCelebration (s : OrchState) : OrchState :=
  { s with
    celebrationStartTime := some s.clockTime
    targetShakeIntensity := 1/2
    fireworkSpawnsScheduled := s.fireworkSpawnsScheduled + 5 }

/-- `TemporalCollapseScene.updateProgress(progress, phase)`: stores the new
progress and phase, then fires `triggerClimax` when the phase entered is
`climax` and the previous phase was not, and `triggerCelebration`
symmetrically for `celebration`. -/
def updateProgress (s : OrchState) (progress : ℚ) (phase : Phase) : OrchState :=
  let previousPhase := s.phase
  let s1 := { s with progress := progress, phase := phase }
  let s2 := if phase = .climax ∧ previousPhase ≠ .climax then triggerClimax s1 else s1
  if phase = .celebration ∧ previousPhase ≠ .celebration then triggerCelebration s2 else s2

/-- Fold a sequence of `updateProgress(progress, phase)` calls over a state. -/
def runUpdates (s : OrchState) (us : List (ℚ × Phase)) : OrchState :=
  us.foldl (fun st u => updateProgress st u.1 u.2) s

/-- The externally visible actions a single invocation of the orchestrator's
frame callback (or of a deferred celebration-spawn callback) can perform
(source: `src/scene/TemporalCollapseScene.ts`, `animate` and
`triggerCelebration`). -/
inductive FrameAction where
  | scheduleNextFrame
  | updateStarField
  | updateTimeParticles
  | updateBurst
  | updateShockwaves
  | updateFireworks
  | updateFlash
  | spawnFirework
  | triggerFlash
  | updateCamera
  | updateFOV
  | render
deriving DecidableEq, Repr

/-- The action trace of one invocation of `TemporalCollapseScene.animate`.
The body first checks `isDisposed` and returns before any work; otherwise it
requests the next frame, updates every subsystem, optionally spawns a
celebration firework (`fireworkDue` models the randomized inter-arrival
check `time - lastFireworkTime > fireworkInterval`, `occasionalFlash`
models `Math.random() > 0.7`), updates camera and FOV, and renders. -/
def animateActions (isDisposed : Bool) (phase : Phase)
    (fireworkDue occasionalFlash : Bool) : List FrameAction :=
  if isDisposed then []
  else
    [.scheduleNextFrame, .updateStarField, .updateTimeParticles, .updateBurst,
     .updateShockwaves, .updateFireworks, .updateFlash]
    ++ (if phase = .celebration ∧ fireworkDue then
          [.spawnFirework] ++ (if occasionalFlash then [.triggerFlash] else [])
        else [])
    ++ [.updateCamera, .updateFOV, .render]

/-- The action trace of one deferred celebration-spawn callback scheduled by
`triggerCelebration`: `if (!this.isDisposed) { fireworkSystem.spawn(...) }`. -/
def celebrationSpawnCallback (isDisposed : Bool) : List FrameAction :=
  if isDisposed then [] else [.spawnFirework]

end TemporalCollapseScene

namespace BurstSystem

/-- One burst layer (source: `src/scene/systems/BurstSystem.ts`, interface
`BurstLayer`): per-particle positions, launch velocities and lifetimes, the
activation start time (`none` until triggered), the stagger delay, the
material opacity and the visibility flag. -/
structure BurstLayer where
  positions : List (ℚ × ℚ × ℚ)
  velocities : List (ℚ × ℚ × ℚ)
  lifetimes : List ℚ
  startTime : Option ℚ
  delay : ℚ
  opacity : ℚ
  visible : Bool
deriving DecidableEq, Repr

/-- The per-layer particle counts of the five layer configurations in
`BurstSystem.createLayers`. -/
def layerCounts : List ℕ := [3000, 2000, 2000, 1500, 1000]

/-- `BurstSystem.createLayer`: `count` particles at the origin, with random
spherical launch velocities and random lifetimes (the `Math.random()` draws
are abstracted into the `vel` and `life` streams), opacity 1, not yet
triggered and invisible. -/
def createLayer (count : ℕ) (vel : ℕ → ℚ × ℚ × ℚ) (life : ℕ → ℚ) : BurstLayer :=
  { positions := List.replicate count ((0 : ℚ), (0 : ℚ), (0 : ℚ))
    velocities := (List.range count).map vel
    lifetimes := (List.range count).map life
    startTime := none
    delay := 0
    opacity := 1
    visible := false }

/-- `BurstSystem.createLayers`: builds the five configured layers and sets
`layer.delay = index * 0.1`.  The per-layer random streams are abstracted
as `vel i` / `life i`. -/
def createLayers (vel : ℕ → ℕ → ℚ × ℚ × ℚ) (life : ℕ → ℕ → ℚ) : List BurstLayer :=
  (List.range layerCounts.length).map fun i =>
    { createLayer (layerCounts.getD i 0) (vel i) (life i) with
      delay := (i : ℚ) * (1/10) }

/-- `BurstSystem.trigger(startTime)`: for every layer, sets
`startTime + layer.delay` as the activation time, makes the layer visible,
resets every particle position to the origin and the opacity to 1.
Velocities and lifetimes are untouched. -/
def trigger (startTime : ℚ) (layers : List BurstLayer) : List BurstLayer :=
  layers.map fun layer =>
    { layer with
      startTime := some (startTime + layer.delay)
      visible := true
      positions := layer.positions.map (fun _ => ((0 : ℚ), (0 : ℚ), (0 : ℚ)))
      opacity := 1 }

end BurstSystem

namespace FireworkSystem

/-- One firework instance (source: `src/scene/systems/FireworkSystem.ts`,
interface `FireworkParticle`): the particle positions, the launch
velocities, the spawn time, the lifetime and the material opacity. -/
structure Firework where
  positions : List (ℚ × ℚ × ℚ)
  velocities : List (ℚ × ℚ × ℚ)
  startTime : ℚ
  lifetime : ℚ
  opacity : ℚ
deriving DecidableEq, Repr

/-- The normalized age `(time - startTime) / lifetime` computed at the top
of the per-firework loop in `FireworkSystem.update`. -/
def normalizedTime (time : ℚ) (f : Firework) : ℚ :=
  (time - f.startTime) / f.lifetime

/-- The per-firework position/opacity update performed by
`FireworkSystem.update` on a non-expired firework: each particle `j` is
placed at `start + velocity_j * outQuad(normalizedTime) * lifetime` plus the
gravity offset `-2.5 * elapsed^2` on the y coordinate, where `start` is read
from `positions[0..2]` (the first particle's current position), and the
opacity becomes `1 - inQuad(normalizedTime)`. -/
def advanceFirework (time : ℚ) (f : Firework) : Firework :=
  let elapsed := time - f.startTime
  let nt := normalizedTime time f
  let easedProgress := ease.outQuad nt
  let start := f.positions.headI
  let gravityOffset := -(5/2 : ℚ) * elapsed * elapsed
  { f with
    positions := f.velocities.map fun vel =>
      (start.1 + vel.1 * easedProgress * f.lifetime,
       start.2.1 + vel.2.1 * easedProgress * f.lifetime + gravityOffset,
       start.2.2 + vel.2.2 * easedProgress * f.lifetime)
    opacity := 1 - ease.inQuad nt }

/-- `FireworkSystem.update(time, dt)`: the first pass marks every firework
with `normalizedTime >= 1` for removal and advances the others; the second
pass splices the marked ones out (in reverse index order, which preserves
the relative order of the survivors).  The resulting active list is
therefore the non-expired fireworks, advanced, in order. -/
def update (time : ℚ) (fws : List Firework) : List Firework :=
  (fws.filter fun f => decide (normalizedTime time f < 1)).map (advanceFirework time)

/-- The fireworks removed from the scene and disposed by
`FireworkSystem.update(time, dt)`: exactly those with `normalizedTime >= 1`. -/
def disposedBy (time : ℚ) (fws : List Firework) : List Firework :=
  fws.filter fun f => decide (1 ≤ normalizedTime time f)

end FireworkSystem

/-- A concrete freshly-constructed orchestrator state (all counters zero,
phase dormant), used to evaluate the transition theorems on explicit
inputs. -/
def sampleOrchState : TemporalCollapseScene.OrchState :=
  { progress := 0
    phase := .dormant
    clockTime := 0
    climaxStartTime := none
    celebrationStartTime := none
    targetShakeIntensity := 0
    burstTriggerCount := 0
    shockwaveClimaxCount := 0
    flashTriggerCount := 0
    fireworkSpawnsScheduled := 0 }

/-- A concrete one-particle burst layer used to evaluate the trigger
theorem on explicit inputs. -/
def sampleBurstLayer : BurstSystem.BurstLayer :=
  { positions := [((1 : ℚ), (2 : ℚ), (3 : ℚ))]
    velocities := [((4 : ℚ), (5 : ℚ), (6 : ℚ))]
    lifetimes := [(3 : ℚ)]
    startTime := none
    delay := 0
    opacity := 1/2
    visible := false }

/-- The image of `sampleBurstLayer` under `BurstSystem.trigger 7`. -/
def sampleTriggeredLayer : BurstSystem.BurstLayer :=
  { positions := [((0 : ℚ), (0 : ℚ), (0 : ℚ))]
    velocities := [((4 : ℚ), (5 : ℚ), (6 : ℚ))]
    lifetimes := [(3 : ℚ)]
    startTime := some 7
    delay := 0
    opacity := 1
    visible := true }

/-- A concrete firework instance used to evaluate the firework-expiry
theorem on explicit inputs. -/
def sampleFirework : FireworkSystem.Firework :=
  { positions := [((0 : ℚ), (0 : ℚ), (0 : ℚ))]
    velocities := [((1 : ℚ), (1 : ℚ), (1 : ℚ))]
    startTime := 0
    lifetime := 2
    opacity := 1 }

section EasingBoundaryLemmas

lemma ease_outExpo_zero : ease.outExpo 0 = 0 := by
  rw [ease.outExpo, if_neg (by norm_num)]
  rw [show (-10 : ℝ) * 0 = 0 by ring, Real.rpow_zero]
  norm_num

lemma ease_outExpo_one : ease.outExpo 1 = 1 := by
  rw [ease.outExpo, if_pos rfl]

lemma ease_inExpo_zero : ease.inExpo 0 = 0 := by
  rw [ease.inExpo, if_pos rfl]

lemma ease_inExpo_one : ease.inExpo 1 = 1 := by
  rw [ease.inExpo, if_neg (by norm_num)]
  rw [show (10 : ℝ) * (1 - 1) = 0 by ring, Real.rpow_zero]

lemma ease_elastic_zero : ease.elastic 0 = 0 := by
  rw [ease.elastic, if_pos rfl]

lemma ease_elastic_one : ease.elastic 1 = 1 := by
  rw [ease.elastic, if_neg (by norm_num), if_pos rfl]

lemma ease_dramaticRamp_zero : ease.dramaticRamp 0 = 0 := by
  rw [ease.dramaticRamp, if_pos (by norm_num)]
  norm_num

lemma ease_dramaticRamp_one : ease.dramaticRamp 1 = 1 := by
  rw [ease.dramaticRamp, if_neg (by norm_num)]
  rw [show ((1 : ℝ) - 0.83) / 0.17 = 1 by norm_num, Real.one_rpow]
  norm_num

lemma ease_finalCountdown_zero : ease.finalCountdown 0 = 0 := by
  rw [ease.finalCountdown, if_pos (by norm_num)]
  exact ease_dramaticRamp_zero

lemma ease_finalCountdown_one : ease.finalCountdown 1 = 1 := by
  rw [ease.finalCountdown, if_neg (by norm_num)]
  rw [show ((1 : ℝ) - 0.98) / 0.02 = 1 by norm_num, Real.one_rpow]
  norm_num

end EasingBoundaryLemmas

/-- C2: `calculatePhase` is total on every `remaining` value and
order-reversing for the ordering dormant < calm < building < intense <
final < climax < celebration: `r1 < r2` implies `calculatePhase r1` is
never earlier in that ordering than `calculatePhase r2`; moreover it maps
7,200,000 ↦ dormant, 1,800,000 ↦ calm, 300,000 ↦ building,
30,000 ↦ intense, 5,000 ↦ final, −2,000 ↦ climax, −10,000 ↦ celebration. -/
theorem calculatePhase_antitone_and_scenario :
    (∀ r1 r2 : ℚ, r1 < r2 →
      phaseIdx (calculatePhase r2) ≤ phaseIdx (calculatePhase r1))
    ∧ calculatePhase 7200000 = .dormant
    ∧ calculatePhase 1800000 = .calm
    ∧ calculatePhase 300000 = .building
    ∧ calculatePhase 30000 = .intense
    ∧ calculatePhase 5000 = .final
    ∧ calculatePhase (-2000) = .climax
    ∧ calculatePhase (-10000) = .celebration := by
  refine ⟨?_, by norm_num [calculatePhase], by norm_num [calculatePhase],
    by norm_num [calculatePhase], by norm_num [calculatePhase],
    by norm_num [calculatePhase], by norm_num [calculatePhase],
    by norm_num [calculatePhase]⟩
  intro r1 r2 h
  simp only [calculatePhase, PHASE_THRESHOLDS.calm, PHASE_THRESHOLDS.building,
    PHASE_THRESHOLDS.intense, PHASE_THRESHOLDS.final, PHASE_THRESHOLDS.celebrationDelay]
  split_ifs <;> simp only [phaseIdx] <;> first
    | rfl
    | linarith

/-- Witness for C2 at a concrete pair of remaining values. -/
theorem calculatePhase_antitone_witness :
    (-10000 : ℚ) < 5000
    ∧ phaseIdx (calculatePhase 5000) ≤ phaseIdx (calculatePhase (-10000)) :=
  ⟨by norm_num, calculatePhase_antitone_and_scenario.1 (-10000) 5000 (by norm_num)⟩

/-- C3: for every target date and current time, `calculateState` returns
`progress = clamp(1 - remaining/3600000, 0, 1)`, hence progress always lies
in `[0,1]`, equals 0 whenever `remaining ≥ 3,600,000` ms and equals 1
whenever `remaining ≤ 0`. -/
theorem calculateState_progress_clamped :
    ∀ targetDate now : ℚ,
      (calculateState targetDate now).progress
        = max 0 (min 1 (1 - (targetDate - now) / 3600000))
      ∧ 0 ≤ (calculateState targetDate now).progress
      ∧ (calculateState targetDate now).progress ≤ 1
      ∧ (3600000 ≤ targetDate - now → (calculateState targetDate now).progress = 0)
      ∧ (targetDate - now ≤ 0 → (calculateState targetDate now).progress = 1) := by
  intro targetDate now
  have hform : (calculateState targetDate now).progress
      = max 0 (min 1 (1 - (targetDate - now) / 3600000)) := by
    simp only [calculateState]
    norm_num
  refine ⟨hform, ?_, ?_, ?_, ?_⟩
  · rw [hform]; exact le_max_left _ _
  · rw [hform]
    exact max_le (by norm_num) (min_le_left _ _)
  · intro h
    rw [hform]
    have h1 : (1 : ℚ) ≤ (targetDate - now) / 3600000 := by
      rw [le_div_iff₀ (by norm_num : (0 : ℚ) < 3600000)]
      linarith
    have hx : 1 - (targetDate - now) / 3600000 ≤ 0 := by linarith
    rw [min_eq_right (by linarith : 1 - (targetDate - now) / 3600000 ≤ 1),
      max_eq_left hx]
  · intro h
    rw [hform]
    have h1 : (targetDate - now) / 3600000 ≤ 0 :=
      div_nonpos_of_nonpos_of_nonneg h (by norm_num)
    have hx : (1 : ℚ) ≤ 1 - (targetDate - now) / 3600000 := by linarith
    rw [min_eq_left hx]
    norm_num

/-- Witness for C3 at a concrete target date and time. -/
theorem calculateState_progress_clamped_witness :
    ((0 : ℚ) - 3600000 ≤ 0 ∧ (calculateState 0 3600000).progress = 1)
    ∧ ((3600000 : ℚ) ≤ 7200000 - 0 ∧ (calculateState 7200000 0).progress = 0) :=
  ⟨⟨by norm_num, (calculateState_progress_clamped 0 3600000).2.2.2.2 (by norm_num)⟩,
   ⟨by norm_num, (calculateState_progress_clamped 7200000 0).2.2.2.1 (by norm_num)⟩⟩

/-- C4: every easing function in the `ease` collection (linear, inQuad,
outQuad, inOutQuad, inCubic, outCubic, inOutCubic, outExpo, inExpo,
outBack, elastic, dramaticRamp, finalCountdown) returns exactly 0 at
`t = 0` and exactly 1 at `t = 1`. -/
theorem ease_boundary_exactness :
    ease.linear (0 : ℝ) = 0 ∧ ease.linear (1 : ℝ) = 1
    ∧ ease.inQuad (0 : ℝ) = 0 ∧ ease.inQuad (1 : ℝ) = 1
    ∧ ease.outQuad (0 : ℝ) = 0 ∧ ease.outQuad (1 : ℝ) = 1
    ∧ ease.inOutQuad (0 : ℝ) = 0 ∧ ease.inOutQuad (1 : ℝ) = 1
    ∧ ease.inCubic (0 : ℝ) = 0 ∧ ease.inCubic (1 : ℝ) = 1
    ∧ ease.outCubic (0 : ℝ) = 0 ∧ ease.outCubic (1 : ℝ) = 1
    ∧ ease.inOutCubic (0 : ℝ) = 0 ∧ ease.inOutCubic (1 : ℝ) = 1
    ∧ ease.outExpo 0 = 0 ∧ ease.outExpo 1 = 1
    ∧ ease.inExpo 0 = 0 ∧ ease.inExpo 1 = 1
    ∧ ease.outBack (0 : ℝ) = 0 ∧ ease.outBack (1 : ℝ) = 1
    ∧ ease.elastic 0 = 0 ∧ ease.elastic 1 = 1
    ∧ ease.dramaticRamp 0 = 0 ∧ ease.dramaticRamp 1 = 1
    ∧ ease.finalCountdown 0 = 0 ∧ ease.finalCountdown 1 = 1 := by
  refine ⟨rfl, rfl, by norm_num [ease.inQuad], by norm_num [ease.inQuad],
    by norm_num [ease.outQuad], by norm_num [ease.outQuad],
    by rw [ease.inOutQuad, if_pos (by norm_num)]; norm_num,
    by rw [ease.inOutQuad, if_neg (by norm_num)]; norm_num,
    by norm_num [ease.inCubic], by norm_num [ease.inCubic],
    by norm_num [ease.outCubic], by norm_num [ease.outCubic],
    by rw [ease.inOutCubic, if_pos (by norm_num)]; norm_num,
    by rw [ease.inOutCubic, if_neg (by norm_num)]; norm_num,
    ease_outExpo_zero, ease_outExpo_one, ease_inExpo_zero, ease_inExpo_one,
    by norm_num [ease.outBack], by norm_num [ease.outBack],
    ease_elastic_zero, ease_elastic_one,
    ease_dramaticRamp_zero, ease_dramaticRamp_one,
    ease_finalCountdown_zero, ease_finalCountdown_one⟩

lemma ease_finalCountdown_at_098 : ease.finalCountdown 0.98 = 0.9 := by
  rw [ease.finalCountdown, if_neg (by norm_num)]
  rw [show ((0.98 : ℝ) - 0.98) / 0.02 = 0 by norm_num,
    Real.zero_rpow (by norm_num : (1.5 : ℝ) ≠ 0)]
  norm_num

/-- C5: `finalCountdown` agrees with `dramaticRamp` on every `t < 0.98`,
`finalCountdown 0.98` is within 0.1 of 0.9, and
`finalCountdown 0.99 > finalCountdown 0.98`. -/
theorem finalCountdown_extends_dramaticRamp :
    (∀ t : ℝ, t < 0.98 → ease.finalCountdown t = ease.dramaticRamp t)
    ∧ |ease.finalCountdown 0.98 - 0.9| ≤ 0.1
    ∧ ease.finalCountdown 0.98 < ease.finalCountdown 0.99 := by
  refine ⟨?_, ?_, ?_⟩
  · intro t ht
    rw [ease.finalCountdown, if_pos ht]
  · rw [ease_finalCountdown_at_098]
    norm_num
  · rw [ease_finalCountdown_at_098, ease.finalCountdown, if_neg (by norm_num)]
    rw [show ((0.99 : ℝ) - 0.98) / 0.02 = 0.5 by norm_num]
    have hpos : (0 : ℝ) < (0.5 : ℝ) ^ (1.5 : ℝ) :=
      Real.rpow_pos_of_pos (by norm_num) _
    nlinarith

/-- Witness for C5 at a concrete `t < 0.98`. -/
theorem finalCountdown_extends_dramaticRamp_witness :
    (0.5 : ℝ) < 0.98 ∧ ease.finalCountdown 0.5 = ease.dramaticRamp 0.5 :=
  ⟨by norm_num, finalCountdown_extends_dramaticRamp.1 0.5 (by norm_num)⟩

/-- Counterexample to C6 as stated: with `speed = 1` and `dt = 0` (allowed
by the claim's `dt ≥ 0`), `smoothLerp 0 1 1 0` returns the current value 0,
not the target 1, because `Math.pow(0, 0) = 1` makes the factor
`1 - (1-1)^(0*60) = 0`. -/
theorem smoothLerp_snap_at_zero_dt_cex :
    smoothLerp 0 1 1 0 = 0 ∧ smoothLerp 0 1 1 0 ≠ 1 := by
  have h : smoothLerp 0 1 1 0 = 0 := by
    rw [smoothLerp, show ((0 : ℝ) * 60) = 0 by ring,
      show ((1 : ℝ) - 1) = 0 by ring, Real.rpow_zero]
    ring
  exact ⟨h, by rw [h]; norm_num⟩

/-- C6 amended: for every current, target, `speed ∈ [0,1]` and `dt ≥ 0`:
the target is a fixed point, zero speed means no movement, and the result
lies weakly between current and target; speed 1 snaps to the target for
every `dt > 0` (at `dt = 0` the result stays at the current value, since
`Math.pow(0,0) = 1`). -/
theorem smoothLerp_props :
    ∀ current target speed dt : ℝ,
      smoothLerp target target speed dt = target
      ∧ smoothLerp current target 0 dt = current
      ∧ (0 < dt → smoothLerp current target 1 dt = target)
      ∧ (0 ≤ speed → speed ≤ 1 → 0 ≤ dt →
          min current target ≤ smoothLerp current target speed dt
          ∧ smoothLerp current target speed dt ≤ max current target) := by
  intro current target speed dt
  refine ⟨by rw [smoothLerp]; ring, ?_, ?_, ?_⟩
  · rw [smoothLerp, show ((1 : ℝ) - 0) = 1 by ring, Real.one_rpow]
    ring
  · intro hdt
    rw [smoothLerp, show ((1 : ℝ) - 1) = 0 by ring,
      Real.zero_rpow (by positivity : dt * 60 ≠ 0)]
    ring
  · intro hs0 hs1 hdt
    have hb0 : (0 : ℝ) ≤ 1 - speed := by linarith
    have hF0 : (0 : ℝ) ≤ (1 - speed) ^ (dt * 60) := Real.rpow_nonneg hb0 _
    have hF1 : (1 - speed) ^ (dt * 60) ≤ 1 :=
      Real.rpow_le_one hb0 (by linarith) (by positivity)
    rw [smoothLerp]
    rcases le_total current target with hc | hc
    · rw [min_eq_left hc, max_eq_right hc]
      constructor <;> nlinarith
    · rw [min_eq_right hc, max_eq_left hc]
      constructor <;> nlinarith

/-- Witness for C6 (amended) at concrete inputs. -/
theorem smoothLerp_props_witness :
    ((0 : ℝ) < 1 ∧ smoothLerp 3 7 1 1 = 7)
    ∧ ((0 : ℝ) ≤ 1/2 ∧ (1/2 : ℝ) ≤ 1 ∧ (0 : ℝ) ≤ 1
        ∧ min (3 : ℝ) 7 ≤ smoothLerp 3 7 (1/2) 1 ∧ smoothLerp 3 7 (1/2) 1 ≤ max 3 7) :=
  ⟨⟨by norm_num, (smoothLerp_props 3 7 0 1).2.2.1 (by norm_num)⟩,
   ⟨by norm_num, by norm_num, by norm_num,
    ((smoothLerp_props 3 7 (1/2) 1).2.2.2 (by norm_num) (by norm_num) (by norm_num)).1,
    ((smoothLerp_props 3 7 (1/2) 1).2.2.2 (by norm_num) (by norm_num) (by norm_num)).2⟩⟩

/-- C7: `smoothLerp` is frame-rate independent — in exact real arithmetic,
two successive steps of size `d` equal one step of size `2·d`, for every
`speed ∈ [0,1]` and `d ≥ 0`. -/
theorem smoothLerp_frame_rate_independent :
    ∀ current target speed d : ℝ, 0 ≤ speed → speed ≤ 1 → 0 ≤ d →
      smoothLerp (smoothLerp current target speed d) target speed d
        = smoothLerp current target speed (2 * d) := by
  intro c T s d hs0 hs1 hd
  have hb : (0 : ℝ) ≤ 1 - s := by linarith
  have key : (1 - s) ^ (d * 60) * (1 - s) ^ (d * 60) = (1 - s) ^ (2 * d * 60) := by
    rcases eq_or_lt_of_le hb with hb0 | hbpos
    · rcases eq_or_lt_of_le hd with hd0 | hdpos
      · rw [← hb0, ← hd0]
        norm_num
      · rw [← hb0, Real.zero_rpow (by positivity : d * 60 ≠ 0),
          Real.zero_rpow (by positivity : 2 * d * 60 ≠ 0)]
        ring
    · rw [← Real.rpow_add hbpos]
      congr 1
      ring
  simp only [smoothLerp]
  linear_combination (c - T) * key

/-- Witness for C7 at concrete inputs. -/
theorem smoothLerp_frame_rate_independent_witness :
    (0 : ℝ) ≤ 1/2 ∧ (1/2 : ℝ) ≤ 1 ∧ (0 : ℝ) ≤ 1
    ∧ smoothLerp (smoothLerp 0 1 (1/2) 1) 1 (1/2) 1 = smoothLerp 0 1 (1/2) (2 * 1) :=
  ⟨by norm_num, by norm_num, by norm_num,
   smoothLerp_frame_rate_independent 0 1 (1/2) 1 (by norm_num) (by norm_num) (by norm_num)⟩

section OrchestratorLemmas

open TemporalCollapseScene

lemma updateProgress_burstCount (s : OrchState) (p : ℚ) (ph : Phase) :
    (updateProgress s p ph).burstTriggerCount
      = s.burstTriggerCount
        + (if ph = Phase.climax ∧ s.phase ≠ Phase.climax then 1 else 0) := by
  simp only [updateProgress, triggerClimax, triggerCelebration]
  split_ifs <;> rfl

lemma updateProgress_shockwaveCount (s : OrchState) (p : ℚ) (ph : Phase) :
    (updateProgress s p ph).shockwaveClimaxCount
      = s.shockwaveClimaxCount
        + (if ph = Phase.climax ∧ s.phase ≠ Phase.climax then 1 else 0) := by
  simp only [updateProgress, triggerClimax, triggerCelebration]
  split_ifs <;> rfl

lemma updateProgress_flashCount (s : OrchState) (p : ℚ) (ph : Phase) :
    (updateProgress s p ph).flashTriggerCount
      = s.flashTriggerCount
        + (if ph = Phase.climax ∧ s.phase ≠ Phase.climax then 1 else 0) := by
  simp only [updateProgress, triggerClimax, triggerCelebration]
  split_ifs <;> rfl

lemma updateProgress_fireworkScheduled (s : OrchState) (p : ℚ) (ph : Phase) :
    (updateProgress s p ph).fireworkSpawnsScheduled
      = s.fireworkSpawnsScheduled
        + (if ph = Phase.celebration ∧ s.phase ≠ Phase.celebration then 5 else 0) := by
  simp only [updateProgress, triggerClimax, triggerCelebration]
  split_ifs <;> rfl

lemma updateProgress_phase_eq (s : OrchState) (p : ℚ) (ph : Phase) :
    (updateProgress s p ph).phase = ph := by
  simp only [updateProgress, triggerClimax, triggerCelebration]
  split_ifs <;> rfl

lemma runUpdates_climax_steady (us : List (ℚ × Phase)) :
    ∀ s : OrchState, s.phase = Phase.climax → (∀ u ∈ us, u.2 = Phase.climax) →
      (runUpdates s us).burstTriggerCount = s.burstTriggerCount := by
  induction us with
  | nil => intro s _ _; rfl
  | cons u rest ih =>
    intro s hph hall
    have hu : u.2 = Phase.climax := hall u (List.mem_cons_self u rest)
    have hstep : (updateProgress s u.1 u.2).burstTriggerCount = s.burstTriggerCount := by
      rw [updateProgress_burstCount, if_neg (by simp [hu, hph]), Nat.add_zero]
    have hphase : (updateProgress s u.1 u.2).phase = Phase.climax := by
      rw [updateProgress_phase_eq, hu]
    have := ih (updateProgress s u.1 u.2) hphase
      (fun v hv => hall v (List.mem_cons_of_mem u hv))
    calc (runUpdates s (u :: rest)).burstTriggerCount
        = (runUpdates (updateProgress s u.1 u.2) rest).burstTriggerCount := rfl
      _ = (updateProgress s u.1 u.2).burstTriggerCount := this
      _ = s.burstTriggerCount := hstep

end OrchestratorLemmas

/-- C1: on every `updateProgress(progress, phase)` call, `triggerClimax`
fires (the burst trigger, the shockwave climax sequence and the flash each
fire once) iff the new phase is `climax` and the stored phase was not
`climax`, and symmetrically `triggerCelebration` (which schedules 5
deferred firework spawns) fires iff entering `celebration`; over any
nonempty sequence of calls whose phases are all `climax`, starting from a
non-climax state, the burst sequence fires exactly once; once in `climax`
it never re-fires while the phase stays `climax`; re-entering the current
phase is a no-op apart from storing the new progress. -/
theorem updateProgress_edge_triggered :
    (∀ (s : TemporalCollapseScene.OrchState) (p : ℚ) (ph : Phase),
      (TemporalCollapseScene.updateProgress s p ph).burstTriggerCount
        = s.burstTriggerCount
          + (if ph = Phase.climax ∧ s.phase ≠ Phase.climax then 1 else 0)
      ∧ (TemporalCollapseScene.updateProgress s p ph).shockwaveClimaxCount
        = s.shockwaveClimaxCount
          + (if ph = Phase.climax ∧ s.phase ≠ Phase.climax then 1 else 0)
      ∧ (TemporalCollapseScene.updateProgress s p ph).flashTriggerCount
        = s.flashTriggerCount
          + (if ph = Phase.climax ∧ s.phase ≠ Phase.climax then 1 else 0)
      ∧ (TemporalCollapseScene.updateProgress s p ph).fireworkSpawnsScheduled
        = s.fireworkSpawnsScheduled
          + (if ph = Phase.celebration ∧ s.phase ≠ Phase.celebration then 5 else 0))
    ∧ (∀ (s : TemporalCollapseScene.OrchState) (us : List (ℚ × Phase)),
        s.phase ≠ Phase.climax → us ≠ [] → (∀ u ∈ us, u.2 = Phase.climax) →
        (TemporalCollapseScene.runUpdates s us).burstTriggerCount
          = s.burstTriggerCount + 1)
    ∧ (∀ (s : TemporalCollapseScene.OrchState) (us : List (ℚ × Phase)),
        s.phase = Phase.climax → (∀ u ∈ us, u.2 = Phase.climax) →
        (TemporalCollapseScene.runUpdates s us).burstTriggerCount
          = s.burstTriggerCount)
    ∧ (∀ (s : TemporalCollapseScene.OrchState) (p : ℚ),
        TemporalCollapseScene.updateProgress s p s.phase = { s with progress := p }) := by
  refine ⟨?_, ?_, ?_, ?_⟩
  · intro s p ph
    exact ⟨updateProgress_burstCount s p ph, updateProgress_shockwaveCount s p ph,
      updateProgress_flashCount s p ph, updateProgress_fireworkScheduled s p ph⟩
  · intro s us hs hne hall
    match us with
    | [] => exact absurd rfl hne
    | u :: rest =>
      have hu : u.2 = Phase.climax := hall u (List.mem_cons_self u rest)
      have hstep : (TemporalCollapseScene.updateProgress s u.1 u.2).burstTriggerCount
          = s.burstTriggerCount + 1 := by
        rw [updateProgress_burstCount, if_pos ⟨hu, hs⟩]
      have hphase : (TemporalCollapseScene.updateProgress s u.1 u.2).phase = Phase.climax := by
        rw [updateProgress_phase_eq, hu]
      calc (TemporalCollapseScene.runUpdates s (u :: rest)).burstTriggerCount
          = (TemporalCollapseScene.runUpdates
              (TemporalCollapseScene.updateProgress s u.1 u.2) rest).burstTriggerCount := rfl
        _ = (TemporalCollapseScene.updateProgress s u.1 u.2).burstTriggerCount :=
            runUpdates_climax_steady rest _ hphase
              (fun v hv => hall v (List.mem_cons_of_mem u hv))
        _ = s.burstTriggerCount + 1 := hstep
  · intro s us hs hall
    exact runUpdates_climax_steady us s hs hall
  · intro s p
    have h1 : ¬ (s.phase = Phase.climax ∧ s.phase ≠ Phase.climax) := fun h => h.2 h.1
    have h2 : ¬ (s.phase = Phase.celebration ∧ s.phase ≠ Phase.celebration) :=
      fun h => h.2 h.1
    simp only [TemporalCollapseScene.updateProgress, if_neg h1, if_neg h2]

/-- Witness for C1: from a fresh dormant state, two consecutive climax
updates fire the burst trigger exactly once. -/
theorem updateProgress_edge_triggered_witness :
    (sampleOrchState.phase ≠ Phase.climax
      ∧ ([((0 : ℚ), Phase.climax), ((0 : ℚ), Phase.climax)] : List (ℚ × Phase)) ≠ []
      ∧ (TemporalCollapseScene.runUpdates sampleOrchState
          [((0 : ℚ), Phase.climax), ((0 : ℚ), Phase.climax)]).burstTriggerCount
        = sampleOrchState.burstTriggerCount + 1) :=
  ⟨by simp [sampleOrchState], by simp,
   updateProgress_edge_triggered.2.1 sampleOrchState
     [((0 : ℚ), Phase.climax), ((0 : ℚ), Phase.climax)]
     (by simp [sampleOrchState]) (by simp)
     (by intro u hu; simp only [List.mem_cons, List.mem_singleton] at hu
         rcases hu with h | h | h <;> simp_all)⟩

/-- C8: once the disposed flag is set, an invocation of the frame callback
`animate` performs no work at all — in particular it does not request the
next frame — and a still-pending deferred celebration firework-spawn
callback spawns nothing. -/
theorem disposed_scene_does_no_work :
    (∀ (phase : Phase) (fireworkDue occasionalFlash : Bool),
      TemporalCollapseScene.animateActions true phase fireworkDue occasionalFlash = []
      ∧ TemporalCollapseScene.FrameAction.scheduleNextFrame
          ∉ TemporalCollapseScene.animateActions true phase fireworkDue occasionalFlash)
    ∧ TemporalCollapseScene.celebrationSpawnCallback true = []
    ∧ TemporalCollapseScene.FrameAction.spawnFirework
        ∉ TemporalCollapseScene.celebrationSpawnCallback true := by
  refine ⟨fun phase fireworkDue occasionalFlash => ⟨rfl, ?_⟩, rfl, ?_⟩
  · rw [show TemporalCollapseScene.animateActions true phase fireworkDue occasionalFlash
        = [] from rfl]
    exact List.not_mem_nil _
  · rw [show TemporalCollapseScene.celebrationSpawnCallback true = [] from rfl]
    exact List.not_mem_nil _

section BurstLemmas

open BurstSystem

lemma createLayers_getElem (vel : ℕ → ℕ → ℚ × ℚ × ℚ) (life : ℕ → ℕ → ℚ)
    (i : ℕ) (hi : i < 5) :
    (createLayers vel life)[i]?
      = some { createLayer (layerCounts.getD i 0) (vel i) (life i) with
               delay := (i : ℚ) * (1/10) } := by
  have hlen : layerCounts.length = 5 := rfl
  rw [createLayers, List.getElem?_map, List.getElem?_range (by rw [hlen]; exact hi)]
  rfl

lemma trigger_getElem (t : ℚ) (layers : List BurstLayer) (i : ℕ) :
    (trigger t layers)[i]?
      = layers[i]?.map fun layer =>
          { layer with
            startTime := some (t + layer.delay)
            visible := true
            positions := layer.positions.map (fun _ => ((0 : ℚ), (0 : ℚ), (0 : ℚ)))
            opacity := 1 } := by
  rw [trigger, List.getElem?_map]

end BurstLemmas

/-- C9: `BurstSystem.trigger(startTime)` on the constructed layers sets
layer `i`'s start time to `startTime + i·0.1`; on any layer list it resets
every particle position of every layer to the origin and each layer's
opacity to 1, and leaves every layer's per-particle velocity field and
lifetimes unchanged — so a retrigger reuses exactly the velocities fixed
at construction. -/
theorem burstSystem_trigger_staggers_and_reuses_velocities :
    (∀ (vel : ℕ → ℕ → ℚ × ℚ × ℚ) (life : ℕ → ℕ → ℚ) (t : ℚ) (i : ℕ), i < 5 →
      ((BurstSystem.trigger t (BurstSystem.createLayers vel life)).map
          BurstSystem.BurstLayer.startTime)[i]?
        = some (some (t + (i : ℚ) * (1/10))))
    ∧ (∀ (t : ℚ) (layers : List BurstSystem.BurstLayer),
        ∀ L ∈ BurstSystem.trigger t layers,
          (∀ p ∈ L.positions, p = ((0 : ℚ), (0 : ℚ), (0 : ℚ))) ∧ L.opacity = 1)
    ∧ (∀ (t : ℚ) (layers : List BurstSystem.BurstLayer),
        (BurstSystem.trigger t layers).map BurstSystem.BurstLayer.velocities
          = layers.map BurstSystem.BurstLayer.velocities
        ∧ (BurstSystem.trigger t layers).map BurstSystem.BurstLayer.lifetimes
          = layers.map BurstSystem.BurstLayer.lifetimes) := by
  refine ⟨?_, ?_, ?_⟩
  · intro vel life t i hi
    rw [BurstSystem.trigger, List.map_map, List.getElem?_map,
      createLayers_getElem vel life i hi]
    rfl
  · intro t layers L hL
    rw [BurstSystem.trigger] at hL
    rcases List.mem_map.1 hL with ⟨L0, _, rfl⟩
    refine ⟨?_, rfl⟩
    intro p hp
    rcases List.mem_map.1 hp with ⟨q, _, rfl⟩
    rfl
  · intro t layers
    constructor <;> rw [BurstSystem.trigger, List.map_map] <;> rfl

/-- Witness for C9 at a concrete construction, trigger time, layer index
and layer list. -/
theorem burstSystem_trigger_witness :
    ((3 : ℕ) < 5
      ∧ ((BurstSystem.trigger 7
            (BurstSystem.createLayers (fun _ _ => (1, 2, 3)) (fun _ _ => 4))).map
          BurstSystem.BurstLayer.startTime)[3]?
        = some (some (7 + (3 : ℚ) * (1/10))))
    ∧ sampleTriggeredLayer ∈ BurstSystem.trigger 7 [sampleBurstLayer]
    ∧ (∀ p ∈ sampleTriggeredLayer.positions, p = ((0 : ℚ), (0 : ℚ), (0 : ℚ)))
    ∧ sampleTriggeredLayer.opacity = 1 := by
  have hmem : sampleTriggeredLayer ∈ BurstSystem.trigger 7 [sampleBurstLayer] := by
    rw [BurstSystem.trigger]
    simp only [List.map_cons, List.map_nil, List.mem_singleton]
    norm_num [sampleTriggeredLayer, sampleBurstLayer]
  exact ⟨⟨by norm_num,
    burstSystem_trigger_staggers_and_reuses_velocities.1
      (fun _ _ => (1, 2, 3)) (fun _ _ => 4) 7 3 (by norm_num)⟩,
   hmem,
   (burstSystem_trigger_staggers_and_reuses_velocities.2.1 7 [sampleBurstLayer]
     sampleTriggeredLayer hmem).1,
   (burstSystem_trigger_staggers_and_reuses_velocities.2.1 7 [sampleBurstLayer]
     sampleTriggeredLayer hmem).2⟩

section FireworkLemmas

open FireworkSystem

lemma advanceFirework_normalizedTime (time : ℚ) (f : Firework) :
    normalizedTime time (advanceFirework time f) = normalizedTime time f := rfl

end FireworkLemmas

/-- C10: after any `FireworkSystem.update(time, dt)`, every firework still
in the active list satisfies `(time - startTime)/lifetime < 1`, and every
firework whose normalized time reached 1 is removed and disposed,
so it is no longer in the active list. -/
theorem fireworkSystem_update_expels_expired :
    ∀ (time : ℚ) (fws : List FireworkSystem.Firework),
      (∀ g ∈ FireworkSystem.update time fws,
        FireworkSystem.normalizedTime time g < 1)
      ∧ (∀ f ∈ fws, 1 ≤ FireworkSystem.normalizedTime time f →
          f ∈ FireworkSystem.disposedBy time fws
          ∧ f ∉ FireworkSystem.update time fws) := by
  intro time fws
  constructor
  · intro g hg
    rw [FireworkSystem.update] at hg
    rcases List.mem_map.1 hg with ⟨f, hf, rfl⟩
    have hkeep := List.of_mem_filter hf
    have hlt : FireworkSystem.normalizedTime time f < 1 := by
      simpa using hkeep
    rw [advanceFirework_normalizedTime]
    exact hlt
  · intro f hf hexp
    refine ⟨List.mem_filter.2 ⟨hf, by simpa using hexp⟩, ?_⟩
    intro hmem
    rw [FireworkSystem.update] at hmem
    rcases List.mem_map.1 hmem with ⟨f', hf', heq⟩
    have hkeep := List.of_mem_filter hf'
    have hlt : FireworkSystem.normalizedTime time f' < 1 := by
      simpa using hkeep
    have hlt2 : FireworkSystem.normalizedTime time f < 1 := by
      rw [← heq, advanceFirework_normalizedTime]
      exact hlt
    linarith

/-- Witness for C10: a firework of lifetime 2 spawned at time 0 is, at
time 5, disposed and absent from the active list. -/
theorem fireworkSystem_update_witness :
    (sampleFirework ∈ [sampleFirework]
      ∧ 1 ≤ FireworkSystem.normalizedTime 5 sampleFirework)
    ∧ sampleFirework ∈ FireworkSystem.disposedBy 5 [sampleFirework]
    ∧ sampleFirework ∉ FireworkSystem.update 5 [sampleFirework] :=
  ⟨⟨List.mem_singleton.2 rfl, by norm_num [FireworkSystem.normalizedTime, sampleFirework]⟩,
   (fireworkSystem_update_expels_expired 5 [sampleFirework]).2 sampleFirework
     (List.mem_singleton.2 rfl)
     (by norm_num [FireworkSystem.normalizedTime, sampleFirework])⟩
